import Mathlib

/-!
Shallow embedding of the Bluetooth frame decoder of
`hardware/blue_uhand/bluetooth.cpp` (class `blue_controller`, methods
`receiveHandle` and `get_servos`), with the data layout of
`hardware/myogen_sketch/myogen_bluetooth/bluetooth.h`.

Serial bytes are modelled as natural numbers in `0 .. 255` (the value read
by `Serial.read()`); the fixed 128-byte `buf` arrays of `blue_info` are
lists of length 128; the 6-slot `servos` array of `uHand_Servo` is a list
of length 6.  The `uint8_t` counters wrap modulo 256 where the source
increments them.  Places where the C++ would execute undefined behaviour
(an out-of-bounds array write, or the completion `memcpy` whose size
operand `rec_num - 2` underflows when `rec_num < 2`) set an explicit `ub`
flag; after `ub` is set, the decoder state is frozen — the embedding makes
no prediction past that point.  `Serial.print` diagnostics are not
modelled.  The in-place writes of `get_servos` into the caller-supplied
`uHand_Servo` are modelled by returning the updated destination.
-/

def FRAME_HEADER : Nat := 0x55

def CMD_SERVO_MOVE : Nat := 0x03

structure blue_info where
  rec_num : Nat
  func : Nat
  buf : List Nat
  deriving DecidableEq

structure LobotServo where
  ID : Nat
  Position : Nat
  deriving DecidableEq

structure uHand_Servo where
  num : Nat
  time : Nat
  servos : List LobotServo
  deriving DecidableEq

structure blue_controller where
  step : Nat
  head_count : Nat
  data_count : Nat
  rec_oj : blue_info
  resule_oj : blue_info
  success : Nat
  ub : Bool
  deriving DecidableEq

def emptyInfo : blue_info := ⟨0, 0, List.replicate 128 0⟩

/-- A freshly constructed controller: the constructor clears `success`;
the remaining members are zero-initialised (static/global instance). -/
def blue_controller.init : blue_controller :=
  ⟨0, 0, 0, emptyInfo, emptyInfo, 0, false⟩

/-- One iteration of the `switch` inside `receiveHandle` on byte `rx`;
also returns the frame published by this byte, if any.  The `case 3`
completion test is the source's `data_count > rec_oj.rec_num - 2`,
evaluated — as in C — after integer promotion to `int`, and the
completion `memcpy(resule_oj.buf, rec_oj.buf, rec_oj.rec_num - 2)` is the
prefix copy below.  A write at `data_count ≥ 128` or a `memcpy` size
underflow (`rec_num < 2`) is undefined behaviour in the source and sets
`ub`. -/
def feedByteE (c : blue_controller) (rx : Nat) : blue_controller × Option blue_info :=
  if c.ub then (c, none)
  else if c.step = 0 then
    if rx = FRAME_HEADER then
      if (c.head_count + 1) % 256 > 1 then ({ c with step := 1, head_count := 0 }, none)
      else ({ c with head_count := (c.head_count + 1) % 256 }, none)
    else ({ c with head_count := 0 }, none)
  else if c.step = 1 then
    if rx > 0 ∨ rx < 128 then
      ({ c with rec_oj := { c.rec_oj with rec_num := rx }, step := 2 }, none)
    else ({ c with step := 0 }, none)
  else if c.step = 2 then
    if rx > 0 then
      ({ c with rec_oj := { c.rec_oj with func := rx }, step := 3 }, none)
    else ({ c with step := 0 }, none)
  else if c.step = 3 then
    if 128 ≤ c.data_count then ({ c with ub := true }, none)
    else if (((c.data_count + 1) % 256 : Nat) : Int) > (c.rec_oj.rec_num : Int) - 2 then
      if c.rec_oj.rec_num < 2 then
        ({ c with rec_oj := { c.rec_oj with buf := c.rec_oj.buf.set c.data_count rx },
                  data_count := (c.data_count + 1) % 256, ub := true }, none)
      else
        ({ c with
            rec_oj := { c.rec_oj with buf := c.rec_oj.buf.set c.data_count rx },
            resule_oj :=
              { rec_num := c.rec_oj.rec_num, func := c.rec_oj.func,
                buf := (c.rec_oj.buf.set c.data_count rx).take (c.rec_oj.rec_num - 2) ++
                       c.resule_oj.buf.drop (c.rec_oj.rec_num - 2) },
            success := 1, data_count := 0, step := 0 },
         some { rec_num := c.rec_oj.rec_num, func := c.rec_oj.func,
                buf := (c.rec_oj.buf.set c.data_count rx).take (c.rec_oj.rec_num - 2) ++
                       c.resule_oj.buf.drop (c.rec_oj.rec_num - 2) })
    else
      ({ c with rec_oj := { c.rec_oj with buf := c.rec_oj.buf.set c.data_count rx },
                data_count := (c.data_count + 1) % 256 }, none)
  else ({ c with step := 0 }, none)

def feedByte (c : blue_controller) (rx : Nat) : blue_controller :=
  (feedByteE c rx).1

/-- `blue_controller::receiveHandle`: drains the available bytes one at a
time through the state machine. -/
def receiveHandle (c : blue_controller) (bytes : List Nat) : blue_controller :=
  bytes.foldl feedByte c

/-- Runs the decoder over `bytes`, also accumulating the sequence of
frames it publishes (the successive contents of `resule_oj`). -/
def runFrom (p : blue_controller × List blue_info) (bytes : List Nat) :
    blue_controller × List blue_info :=
  bytes.foldl (fun q rx => ((feedByteE q.1 rx).1, q.2 ++ ((feedByteE q.1 rx).2).toList)) p

/-- The payload that the completion `memcpy` placed into a published
frame: its first `rec_num - 2` buffer bytes. -/
def storedPayload (b : blue_info) : List Nat :=
  b.buf.take (b.rec_num - 2)

/-- The (ID, position) pair `get_servos` decodes for target `i`:
`ID = buf[i*3+3]`, `Position = (buf[i*3+5] << 8 & 0xff00) + buf[i*3+4]`. -/
def servoTarget (b : List Nat) (i : Nat) : LobotServo :=
  ⟨b.getD (i * 3 + 3) 0, ((b.getD (i * 3 + 5) 0) <<< 8 &&& 0xff00) + b.getD (i * 3 + 4) 0⟩

/-- The loop of `get_servos`, writing targets `0 .. n-1` in place into the
destination's servo array. -/
def writeServos (b : List Nat) (s : List LobotServo) (n : Nat) : List LobotServo :=
  (List.range n).foldl (fun acc i => acc.set i (servoTarget b i)) s

structure GetServosResult where
  ret : Bool
  ctrl : blue_controller
  dest : uHand_Servo
  ub : Bool
  deriving DecidableEq

/-- `blue_controller::get_servos`.  Returns its boolean result, the
controller after the call, and the caller's destination after the call.
When `buf[0] > 6` the source's loop writes `servos[6]` past the 6-slot
array: the in-bounds writes (`min n 6` of them) are modelled and `ub` is
set. -/
def get_servos (c : blue_controller) (u : uHand_Servo) : GetServosResult :=
  if c.success = 0 then ⟨false, c, u, false⟩
  else if c.resule_oj.func = CMD_SERVO_MOVE then
    ⟨true, { c with success := 0 },
      { num := c.resule_oj.buf.getD 0 0,
        time := ((c.resule_oj.buf.getD 2 0) <<< 8 &&& 0xff00) + c.resule_oj.buf.getD 1 0,
        servos := writeServos c.resule_oj.buf u.servos (min (c.resule_oj.buf.getD 0 0) 6) },
      decide (6 < c.resule_oj.buf.getD 0 0)⟩
  else ⟨false, { c with success := 0 }, u, false⟩

/-- A zeroed caller-side destination struct. -/
def dest0 : uHand_Servo := ⟨0, 0, List.replicate 6 ⟨0, 0⟩⟩

/-- The worked example input of the spec. -/
def exampleBytes : List Nat :=
  [0x55, 0x55, 0x07, 0x03, 0x01, 0x2C, 0x01, 0x05, 0x6E, 0x04]

theorem runFrom_append (p : blue_controller × List blue_info) (a b : List Nat) :
    runFrom p (a ++ b) = runFrom (runFrom p a) b := by
  simp [runFrom, List.foldl_append]

theorem runFrom_chunks (chunks : List (List Nat)) (p : blue_controller × List blue_info) :
    chunks.foldl runFrom p = runFrom p chunks.flatten := by
  induction chunks generalizing p with
  | nil => simp [runFrom]
  | cons ch chs ih => simp [List.flatten, runFrom_append, ih]

theorem runFrom_fst (bytes : List Nat) (c : blue_controller) (acc : List blue_info) :
    (runFrom (c, acc) bytes).1 = receiveHandle c bytes := by
  induction bytes generalizing c acc with
  | nil => rfl
  | cons b bs ih => exact ih (feedByte c b) (acc ++ ((feedByteE c b).2).toList)

theorem receiveHandle_append (c : blue_controller) (a b : List Nat) :
    receiveHandle c (a ++ b) = receiveHandle (receiveHandle c a) b := by
  simp [receiveHandle, List.foldl_append]

/-- C1: for every byte sequence and every way of splitting it into chunks,
feeding the chunks one after another produces the same final decoder state
and the same sequence of published frames as feeding the whole sequence at
once; in particular feeding one byte at a time equals one single call, and
the final state is the one `receiveHandle` computes. -/
theorem decode_chunking_invariant (c : blue_controller) (chunks : List (List Nat))
    (bytes : List Nat) :
    chunks.foldl runFrom (c, ([] : List blue_info)) = runFrom (c, []) chunks.flatten ∧
    (bytes.map fun b => [b]).foldl runFrom (c, ([] : List blue_info)) = runFrom (c, []) bytes ∧
    (runFrom (c, []) bytes).1 = receiveHandle c bytes := by
  refine ⟨runFrom_chunks _ _, ?_, runFrom_fst _ _ _⟩
  have h : (bytes.map fun b => [b]).flatten = bytes := by
    induction bytes with
    | nil => rfl
    | cons x xs ih => simp [ih]
  rw [runFrom_chunks, h]

/-- C2 (counterexample): on the spec's example input the decoded position
is not 1134: the decoder copies only `declared_length - 2 = 5` payload
bytes into the published frame, so the high position byte `0x04` is never
copied and the position decodes from `0x00 << 8 | 0x6E`. -/
theorem example_frame_position_ne_1134 :
    ¬ ((get_servos (receiveHandle blue_controller.init exampleBytes)
        dest0).dest.servos.getD 0 ⟨0, 0⟩).Position = 1134 := by
  decide

/-- C2 (amended): feeding the example bytes to a fresh decoder and calling
`get_servos` succeeds with one servo target of ID 5, servo count 1, move
time 300 ms, and position 110 (`0x6E`), the high position byte having been
dropped by the completion copy. -/
theorem example_frame_decodes_position_110 :
    (get_servos (receiveHandle blue_controller.init exampleBytes) dest0).ret = true ∧
    (get_servos (receiveHandle blue_controller.init exampleBytes) dest0).dest.num = 1 ∧
    (get_servos (receiveHandle blue_controller.init exampleBytes) dest0).dest.time = 300 ∧
    (get_servos (receiveHandle blue_controller.init exampleBytes)
        dest0).dest.servos.getD 0 ⟨0, 0⟩ = ⟨5, 110⟩ ∧
    (get_servos (receiveHandle blue_controller.init exampleBytes) dest0).ctrl.success = 0 ∧
    (get_servos (receiveHandle blue_controller.init exampleBytes) dest0).ub = false := by
  decide

/-- C3 (counterexample): with `declared_length = 0` the completion branch
fires on the first payload byte (`1 > 0 - 2` after promotion to `int`),
but its `memcpy` size `rec_num - 2` underflows — undefined behaviour in
the source — so no frame with a stored payload of `declared_length - 2`
bytes is published: the run ends with the `ub` flag set and `success`
still 0. -/
theorem length_zero_completion_ub :
    (receiveHandle blue_controller.init [0x55, 0x55, 0x00, 0x01, 0x09]).ub = true ∧
    (receiveHandle blue_controller.init [0x55, 0x55, 0x00, 0x01, 0x09]).success = 0 := by
  decide

/-- C3 (amended): for a frame whose length and function-code bytes have
been accepted and whose `declared_length` lies in `2 .. 129`, a payload
byte completes the frame exactly when the count of collected payload
bytes exceeds `declared_length - 2`, and the completed frame's stored
payload has exactly `declared_length - 2` bytes; no undefined behaviour
occurs.  (`declared_length < 2` underflows the completion `memcpy`, and
`declared_length ≥ 130` overruns the 128-byte buffer — both undefined.) -/
theorem completion_iff_count_exceeds (c : blue_controller) (rx : Nat)
    (hub : c.ub = false) (hs : c.step = 3)
    (hlo : 2 ≤ c.rec_oj.rec_num) (hhi : c.rec_oj.rec_num ≤ 129)
    (hdc : c.data_count ≤ c.rec_oj.rec_num - 2)
    (hbuf : c.rec_oj.buf.length = 128) :
    ((feedByte c rx).step = 0 ↔ c.rec_oj.rec_num - 2 < c.data_count + 1) ∧
    ((feedByte c rx).step = 0 →
      (feedByte c rx).success = 1 ∧
      (storedPayload (feedByte c rx).resule_oj).length = c.rec_oj.rec_num - 2) ∧
    (feedByte c rx).ub = false := by
  have h128 : ¬ (128 ≤ c.data_count) := by omega
  have hrec2 : ¬ (c.rec_oj.rec_num < 2) := by omega
  by_cases hcomp : (((c.data_count + 1) % 256 : Nat) : Int) > (c.rec_oj.rec_num : Int) - 2
  · have hcomp2 : (c.rec_oj.rec_num : Int) - 2 < ((c.data_count : Int) + 1) % 256 := by
      omega
    have hfeed : feedByte c rx = { c with
        rec_oj := { c.rec_oj with buf := c.rec_oj.buf.set c.data_count rx },
        resule_oj :=
          { rec_num := c.rec_oj.rec_num, func := c.rec_oj.func,
            buf := (c.rec_oj.buf.set c.data_count rx).take (c.rec_oj.rec_num - 2) ++
                   c.resule_oj.buf.drop (c.rec_oj.rec_num - 2) },
        success := 1, data_count := 0, step := 0 } := by
      simp [feedByte, feedByteE, hub, hs, h128, hrec2, hcomp2]
    rw [hfeed]
    refine ⟨⟨fun _ => by omega, fun _ => rfl⟩, fun _ => ⟨rfl, ?_⟩, hub⟩
    simp [storedPayload, hbuf]
    omega
  · have hcomp2 : ¬ ((c.rec_oj.rec_num : Int) - 2 < ((c.data_count : Int) + 1) % 256) := by
      omega
    have hfeed : feedByte c rx = { c with
        rec_oj := { c.rec_oj with buf := c.rec_oj.buf.set c.data_count rx },
        data_count := (c.data_count + 1) % 256 } := by
      simp [feedByte, feedByteE, hub, hs, h128, hcomp2]
    rw [hfeed]
    refine ⟨⟨fun h => ?_, fun h => ?_⟩, fun h => ?_, hub⟩
    · have h0 : c.step = 0 := h
      omega
    · exfalso; omega
    · have h0 : c.step = 0 := h
      omega

/-- A step-3 state about to finish a `declared_length = 2` frame, used to
instantiate `completion_iff_count_exceeds`. -/
def cLen2 : blue_controller :=
  ⟨3, 0, 0, ⟨2, 1, List.replicate 128 0⟩, emptyInfo, 0, false⟩

/-- Witness for C3's amended theorem at a concrete state and byte. -/
theorem completion_iff_count_exceeds_witness :
    ((feedByte cLen2 9).step = 0 ↔ cLen2.rec_oj.rec_num - 2 < cLen2.data_count + 1) ∧
    ((feedByte cLen2 9).step = 0 →
      (feedByte cLen2 9).success = 1 ∧
      (storedPayload (feedByte cLen2 9).resule_oj).length = cLen2.rec_oj.rec_num - 2) ∧
    (feedByte cLen2 9).ub = false :=
  completion_iff_count_exceeds cLen2 9 rfl rfl (by decide) (by decide) (by decide)
    (by simp [cLen2])

set_option maxRecDepth 100000 in
/-- C8 (code evaluated at the failing input): a frame declaring length
255 — whose implied payload exceeds the 128-byte buffer — is not aborted;
the source writes the 129th payload byte to `rec_oj.buf[128]`, past the
end of the buffer (the embedding's `ub` flag), and never publishes a
frame. -/
theorem payload_overflow_oob :
    (receiveHandle blue_controller.init
      ([0x55, 0x55, 0xFF, 0x01] ++ List.replicate 129 7)).ub = true ∧
    (receiveHandle blue_controller.init
      ([0x55, 0x55, 0xFF, 0x01] ++ List.replicate 129 7)).success = 0 := by
  decide

/-- C9 (code evaluated at the failing input): a completed servo-move frame
whose `servo_count` byte is 7 makes `get_servos` return true while its
loop writes `servos[6]`, past the 6-slot destination array (the
embedding's `ub` flag), instead of treating the count as a decode
error. -/
theorem servo_count_overflow_oob :
    (get_servos (receiveHandle blue_controller.init
        [0x55, 0x55, 0x03, 0x03, 0x07, 0x00]) dest0).ub = true ∧
    (get_servos (receiveHandle blue_controller.init
        [0x55, 0x55, 0x03, 0x03, 0x07, 0x00]) dest0).ret = true := by
  decide

/-- C4: calling `get_servos` with no ready frame returns the no-data
result and changes nothing; when a servo-move frame is ready (with an
in-range servo count), the first call returns the data-available result
and clears `success`, so an immediately following call returns the
no-data result and changes nothing — each decoded frame is consumed at
most once, and any call made while a frame is ready clears `success`. -/
theorem get_servos_consume_once (c : blue_controller) (u v : uHand_Servo)
    (h1 : c.success ≠ 0) (h2 : c.resule_oj.func = CMD_SERVO_MOVE)
    (h3 : c.resule_oj.buf.getD 0 0 ≤ 6) :
    (∀ c2 u2, c2.success = 0 → get_servos c2 u2 = ⟨false, c2, u2, false⟩) ∧
    (∀ c2 u2, c2.success ≠ 0 → (get_servos c2 u2).ctrl.success = 0) ∧
    (get_servos c u).ret = true ∧ (get_servos c u).ub = false ∧
    get_servos (get_servos c u).ctrl v = ⟨false, (get_servos c u).ctrl, v, false⟩ := by
  have hclear : ∀ c2 u2, c2.success ≠ 0 → (get_servos c2 u2).ctrl.success = 0 := by
    intro c2 u2 h
    by_cases hf : c2.resule_oj.func = CMD_SERVO_MOVE <;> simp [get_servos, h, hf]
  have hnone : ∀ c2 u2, c2.success = 0 → get_servos c2 u2 = ⟨false, c2, u2, false⟩ := by
    intro c2 u2 h
    simp [get_servos, h]
  refine ⟨hnone, hclear, ?_, ?_, hnone _ v (hclear c u h1)⟩
  · simp [get_servos, h1, h2]
  · rw [get_servos, if_neg h1, if_pos h2]
    exact decide_eq_false (by omega)

/-- A controller holding one completed, unconsumed servo-move frame
(the decoded state after the spec's example input). -/
def cReady : blue_controller :=
  { blue_controller.init with
      success := 1,
      resule_oj := ⟨7, 3, [1, 44, 1, 5, 110] ++ List.replicate 123 0⟩ }

/-- Witness for C4 at a concrete ready state. -/
theorem get_servos_consume_once_witness :
    (get_servos cReady dest0).ret = true ∧ (get_servos cReady dest0).ub = false ∧
    get_servos (get_servos cReady dest0).ctrl dest0 =
      ⟨false, (get_servos cReady dest0).ctrl, dest0, false⟩ :=
  ⟨(get_servos_consume_once cReady dest0 dest0 (by decide) (by decide) (by decide)).2.2.1,
   (get_servos_consume_once cReady dest0 dest0 (by decide) (by decide) (by decide)).2.2.2.1,
   (get_servos_consume_once cReady dest0 dest0 (by decide) (by decide) (by decide)).2.2.2.2⟩

/-- C6: in the `AWAIT_FUNCTION` state, byte value 0 aborts the
in-progress frame and returns the machine to `AWAIT_HEADER`; every other
byte value (1 through 255) is stored as the function code and advances
the machine to `AWAIT_PAYLOAD`. -/
theorem await_function_byte (c : blue_controller) (rx : Nat)
    (hs : c.step = 2) (hub : c.ub = false) (_hbyte : rx ≤ 255) :
    (rx = 0 → feedByte c rx = { c with step := 0 }) ∧
    (rx ≠ 0 → feedByte c rx =
      { c with rec_oj := { c.rec_oj with func := rx }, step := 3 }) := by
  constructor
  · intro h
    simp [feedByte, feedByteE, hs, hub, h]
  · intro h
    simp [feedByte, feedByteE, hs, hub, Nat.pos_of_ne_zero h]

/-- A controller waiting for the function-code byte. -/
def cAwaitFunc : blue_controller := { blue_controller.init with step := 2 }

/-- Witness for C6 at byte values 0 and 0x13. -/
theorem await_function_byte_witness :
    feedByte cAwaitFunc 0 = { cAwaitFunc with step := 0 } ∧
    feedByte cAwaitFunc 0x13 =
      { cAwaitFunc with rec_oj := { cAwaitFunc.rec_oj with func := 0x13 }, step := 3 } :=
  ⟨(await_function_byte cAwaitFunc 0 rfl rfl (by decide)).1 rfl,
   (await_function_byte cAwaitFunc 0x13 rfl rfl (by decide)).2 (by decide)⟩

/-- C10: `get_servos` writes to the caller-supplied destination only when
it returns the data-available result: whenever it returns the no-data
result (no ready frame, or a ready frame whose function code is not the
servo-move code) the destination is returned unchanged. -/
theorem get_servos_no_write_on_no_data (c : blue_controller) (u : uHand_Servo)
    (h : (get_servos c u).ret = false) : (get_servos c u).dest = u := by
  by_cases h0 : c.success = 0
  · simp [get_servos, h0]
  · by_cases hf : c.resule_oj.func = CMD_SERVO_MOVE
    · exfalso
      simp [get_servos, h0, hf] at h
    · simp [get_servos, h0, hf]

/-- Witness for C10: an idle decoder returns the destination unchanged. -/
theorem get_servos_no_write_witness :
    (get_servos blue_controller.init dest0).dest = dest0 :=
  get_servos_no_write_on_no_data blue_controller.init dest0 (by decide)

theorem step0_nonmarker_run (gs : List Nat) (c : blue_controller)
    (h0 : c.step = 0) (hgs : ∀ b ∈ gs, b ≠ FRAME_HEADER) :
    (receiveHandle c gs).step = 0 := by
  induction gs generalizing c with
  | nil => exact h0
  | cons b bs ih =>
      have hb : b ≠ FRAME_HEADER := hgs b (by simp)
      have hstep : (feedByte c b).step = 0 := by
        by_cases hu : c.ub = true
        · simpa [feedByte, feedByteE, hu] using h0
        · simp only [Bool.not_eq_true] at hu
          simp [feedByte, feedByteE, hu, h0, hb]
      exact ih (feedByte c b) hstep fun x hx => hgs x (List.mem_cons_of_mem _ hx)

theorem feed_invariant (c : blue_controller) (rx : Nat)
    (hhc : c.head_count ≤ 1) (hub : c.ub = true → c.step = 3) :
    (feedByte c rx).head_count ≤ 1 ∧
    ((feedByte c rx).ub = true → (feedByte c rx).step = 3) := by
  unfold feedByte feedByteE
  split_ifs <;> simp_all

theorem run_invariant (p : List Nat) (c : blue_controller)
    (hhc : c.head_count ≤ 1) (hub : c.ub = true → c.step = 3) :
    (receiveHandle c p).head_count ≤ 1 ∧
    ((receiveHandle c p).ub = true → (receiveHandle c p).step = 3) := by
  induction p generalizing c with
  | nil => exact ⟨hhc, hub⟩
  | cons b bs ih =>
      have h := feed_invariant c b hhc hub
      exact ih (feedByte c b) h.1 h.2

/-- C5: in the `AWAIT_HEADER` state, a single 0x55 marker followed by
non-marker bytes never advances the machine (a non-marker byte resets the
consecutive-marker count to zero and changes nothing else); a step out of
`AWAIT_HEADER` only ever goes to `AWAIT_LENGTH`; two consecutive 0x55
bytes in `AWAIT_HEADER` with no pending marker land exactly in
`AWAIT_LENGTH`; and after any preceding byte sequence that leaves the
decoder in `AWAIT_HEADER`, two consecutive 0x55 bytes always start a
frame (the machine is no longer in `AWAIT_HEADER`). -/
theorem await_header_double_marker (c : blue_controller) (gs : List Nat) (rx : Nat)
    (h0 : c.step = 0) (hhc : c.head_count = 0)
    (hgs : ∀ b ∈ gs, b ≠ FRAME_HEADER) (hrx : rx ≠ FRAME_HEADER) (hub : c.ub = false) :
    (receiveHandle c (FRAME_HEADER :: gs)).step = 0 ∧
    feedByte c rx = { c with head_count := 0 } ∧
    (∀ b, (feedByte c b).step = 0 ∨ (feedByte c b).step = 1) ∧
    (receiveHandle c [FRAME_HEADER, FRAME_HEADER]).step = 1 ∧
    (∀ p, (receiveHandle blue_controller.init p).step = 0 →
      (receiveHandle blue_controller.init (p ++ [FRAME_HEADER, FRAME_HEADER])).step ≠ 0) := by
  refine ⟨?_, ?_, ?_, ?_, ?_⟩
  · have h1 : (feedByte c FRAME_HEADER).step = 0 := by
      simp [feedByte, feedByteE, hub, h0, hhc]
    exact step0_nonmarker_run gs (feedByte c FRAME_HEADER) h1 hgs
  · simp [feedByte, feedByteE, hub, h0, hrx]
  · intro b
    by_cases hb : b = FRAME_HEADER
    · by_cases hc2 : (c.head_count + 1) % 256 > 1
      · right
        simp [feedByte, feedByteE, hub, h0, hb, hc2]
      · left
        simp [feedByte, feedByteE, hub, h0, hb, hc2]
    · left
      simp [feedByte, feedByteE, hub, h0, hb, h0]
  · simp [receiveHandle, feedByte, feedByteE, hub, h0, hhc]
  · intro p hp
    have hinv := run_invariant p blue_controller.init (by decide) (by decide)
    rw [receiveHandle_append]
    revert hp hinv
    generalize receiveHandle blue_controller.init p = s
    intro hp hinv
    have hubp : s.ub = false := by
      cases hb : s.ub with
      | false => rfl
      | true =>
          exfalso
          rw [hinv.2 hb] at hp
          omega
    rcases Nat.le_one_iff_eq_zero_or_eq_one.mp hinv.1 with h | h
    · simp [receiveHandle, feedByte, feedByteE, hubp, hp, h, FRAME_HEADER]
    · simp [receiveHandle, feedByte, feedByteE, hubp, hp, h, FRAME_HEADER]

/-- Witness for C5 at the freshly constructed controller. -/
theorem await_header_double_marker_witness :
    (receiveHandle blue_controller.init (FRAME_HEADER :: [1, 2])).step = 0 ∧
    feedByte blue_controller.init 7 = { blue_controller.init with head_count := 0 } ∧
    (receiveHandle blue_controller.init [FRAME_HEADER, FRAME_HEADER]).step = 1 :=
  ⟨(await_header_double_marker blue_controller.init [1, 2] 7 rfl rfl (by decide)
      (by decide) rfl).1,
   (await_header_double_marker blue_controller.init [1, 2] 7 rfl rfl (by decide)
      (by decide) rfl).2.1,
   (await_header_double_marker blue_controller.init [1, 2] 7 rfl rfl (by decide)
      (by decide) rfl).2.2.2.1⟩

/-- C7 (counterexample): after header, length byte 2 and an accepted
function-code byte, the frame is **not** complete: `success` is still 0
and the machine sits in `AWAIT_PAYLOAD` (`case 3`), because the
completion test `data_count > rec_num - 2` only runs after a further
byte has been consumed there. -/
theorem len_two_not_complete_after_func :
    (receiveHandle blue_controller.init [0x55, 0x55, 0x02, 0x07]).success = 0 ∧
    (receiveHandle blue_controller.init [0x55, 0x55, 0x02, 0x07]).step = 3 := by
  decide

/-- The decoder state after header and length byte 2. -/
def cGotLen : blue_controller :=
  ⟨2, 0, 0, ⟨2, 0, List.replicate 128 0⟩, emptyInfo, 0, false⟩

/-- The decoder state after header, length byte 2 and function code `f`. -/
def cGotFunc (f : Nat) : blue_controller :=
  ⟨3, 0, 0, ⟨2, f, List.replicate 128 0⟩, emptyInfo, 0, false⟩

/-- The decoder state after a `declared_length = 2` frame with function
code `f` completes by consuming one extra byte `b`. -/
def cFrameDone (f b : Nat) : blue_controller :=
  ⟨0, 0, 0, ⟨2, f, (List.replicate 128 0).set 0 b⟩, ⟨2, f, List.replicate 128 0⟩, 1, false⟩

/-- C7 (amended): a frame whose length byte is 2 is still incomplete when
its function-code byte is accepted; it completes only after one more byte
is consumed in the payload state, and the completed frame's stored
payload is empty (0 bytes); `get_servos` on such a frame with a non-0x03
function code returns the no-data result and clears `success`. -/
theorem len_two_frame (f b : Nat) (u : uHand_Servo) (hf0 : f ≠ 0) :
    receiveHandle blue_controller.init [FRAME_HEADER, FRAME_HEADER, 2, f] = cGotFunc f ∧
    (cGotFunc f).success = 0 ∧ (cGotFunc f).step = 3 ∧
    receiveHandle blue_controller.init [FRAME_HEADER, FRAME_HEADER, 2, f, b] = cFrameDone f b ∧
    (cFrameDone f b).success = 1 ∧ (cFrameDone f b).step = 0 ∧
    (cFrameDone f b).resule_oj.func = f ∧
    storedPayload (cFrameDone f b).resule_oj = [] ∧
    (f ≠ CMD_SERVO_MOVE →
      (get_servos (cFrameDone f b) u).ret = false ∧
      (get_servos (cFrameDone f b) u).ctrl.success = 0) := by
  have h3 : receiveHandle blue_controller.init [FRAME_HEADER, FRAME_HEADER, 2] = cGotLen := by
    decide
  have h4 : receiveHandle blue_controller.init [FRAME_HEADER, FRAME_HEADER, 2, f] =
      cGotFunc f := by
    have e : [FRAME_HEADER, FRAME_HEADER, 2, f] = [FRAME_HEADER, FRAME_HEADER, 2] ++ [f] := rfl
    rw [e, receiveHandle_append, h3]
    simp [receiveHandle, feedByte, feedByteE, cGotLen, cGotFunc, Nat.pos_of_ne_zero hf0]
  have h5 : receiveHandle blue_controller.init [FRAME_HEADER, FRAME_HEADER, 2, f, b] =
      cFrameDone f b := by
    have e : [FRAME_HEADER, FRAME_HEADER, 2, f, b] =
        [FRAME_HEADER, FRAME_HEADER, 2, f] ++ [b] := rfl
    rw [e, receiveHandle_append, h4]
    simp [receiveHandle, feedByte, feedByteE, cGotFunc, cFrameDone, emptyInfo]
  refine ⟨h4, rfl, rfl, h5, rfl, rfl, rfl, by simp [storedPayload, cFrameDone], ?_⟩
  intro hf3
  constructor
  · simp [get_servos, cFrameDone, hf3]
  · simp [get_servos, cFrameDone, hf3]

/-- Witness for C7 at function code 7 and extra byte 9. -/
theorem len_two_frame_witness :
    (cGotFunc 7).success = 0 ∧ (cGotFunc 7).step = 3 ∧
    receiveHandle blue_controller.init [FRAME_HEADER, FRAME_HEADER, 2, 7, 9] = cFrameDone 7 9 ∧
    (cFrameDone 7 9).success = 1 ∧ storedPayload (cFrameDone 7 9).resule_oj = [] ∧
    (get_servos (cFrameDone 7 9) dest0).ret = false ∧
    (get_servos (cFrameDone 7 9) dest0).ctrl.success = 0 :=
  ⟨(len_two_frame 7 9 dest0 (by decide)).2.1,
   (len_two_frame 7 9 dest0 (by decide)).2.2.1,
   (len_two_frame 7 9 dest0 (by decide)).2.2.2.1,
   (len_two_frame 7 9 dest0 (by decide)).2.2.2.2.1,
   (len_two_frame 7 9 dest0 (by decide)).2.2.2.2.2.2.2.1,
   ((len_two_frame 7 9 dest0 (by decide)).2.2.2.2.2.2.2.2 (by decide)).1,
   ((len_two_frame 7 9 dest0 (by decide)).2.2.2.2.2.2.2.2 (by decide)).2⟩
